import Mathlib

/-!
Verification of the data-normalization and filter/aggregation pipeline of a
food-delivery reporting dashboard (`app.py`).

The embedding models one row of the spreadsheet table as a record of parsed
cell values.  Library-level parsing (`pd.read_excel`, `pd.to_datetime` with
`errors="coerce"`) is abstracted: a raw cell carries the parse *result*, where
`none` stands for a null / NaT / unparsable value.  Dates and times are
modelled as integer hours since an epoch, so the hour-of-day component of a
timestamp `t` is `t % 24` and date comparison is integer comparison, matching
the total order on pandas timestamps.  Numeric measures are exact rationals.

Column presence (`"order_hour" in df.columns`, etc.) is modelled by boolean
flags on the table, mirroring the ad-hoc presence checks of the source.
-/

/-- One raw row, after cell-level parsing.  `orderDate` and `timeOrderd` hold
the `pd.to_datetime` result (`none` = NaT), measured in hours since the epoch.
`orderHour` / `ratingGroup` are the raw columns used only when the
corresponding presence flag on the table is set. -/
structure RawRow where
  orderDate : Option ℤ
  timeOrderd : Option ℤ
  orderHour : Option ℤ
  ratingGroup : Option ℤ
  deliveryRating : Option ℚ
  timeTaken : Option ℚ
  city : Option String
  festival : Option String
  weather : Option String
  traffic : Option String
  deliverySpeed : Option String
  deriving DecidableEq, Repr

/-- The raw table: parsed rows plus the column-presence facts the loader
branches on (`"order_hour" in df.columns`, etc.). -/
structure RawTable where
  rows : List RawRow
  hasOrderHour : Bool
  hasTimeOrderd : Bool
  hasRatingGroup : Bool
  hasDeliveryRatings : Bool
  hasFestival : Bool
  hasDeliverySpeed : Bool
  deriving DecidableEq, Repr

/-- One row of the clean table produced by `load_data`.  `orderPeriod` is the
derived column added later, on the filtered table; it starts out absent. -/
structure Row where
  orderDate : Option ℤ
  orderHour : Option ℤ
  ratingGroup : Option ℤ
  deliveryRating : Option ℚ
  timeTaken : Option ℚ
  city : Option String
  festival : Option String
  weather : Option String
  traffic : Option String
  deliverySpeed : Option String
  orderPeriod : Option String
  deriving DecidableEq, Repr

/-- The clean table: rows plus the presence flag of the optional
`delivery_speed` column, which the aggregation stage checks. -/
structure CleanTable where
  rows : List Row
  hasDeliverySpeed : Bool
  deriving DecidableEq, Repr

/-- NumPy / pandas `Series.round()`: round half to even. -/
def npRound (q : ℚ) : ℤ :=
  let f := ⌊q⌋
  let frac := q - f
  if frac < 1/2 then f
  else if 1/2 < frac then f + 1
  else if f % 2 = 0 then f else f + 1

/-- ASCII model of Python `str.strip()` whitespace. -/
def pyIsSpace (c : Char) : Bool :=
  c = ' ' || c = '\t' || c = '\n' || c = '\r'

/-- Python `str.strip()`: drop leading and trailing whitespace. -/
def pyStrip (s : String) : String :=
  String.mk (((s.toList.dropWhile pyIsSpace).reverse.dropWhile pyIsSpace).reverse)

/-- Helper for `pyTitle`: `prevAlpha` records whether the previous character
was a cased letter. -/
def pyTitleGo : Bool → List Char → List Char
  | _, [] => []
  | prevAlpha, c :: cs =>
    (if prevAlpha then c.toLower else c.toUpper) :: pyTitleGo c.isAlpha cs

/-- Python `str.title()` (ASCII): uppercase each letter that follows a
non-letter, lowercase every other letter. -/
def pyTitle (s : String) : String :=
  String.mk (pyTitleGo false s.toList)

/-- Pandas `Series.astype(str)`: a null becomes the literal string "nan". -/
def pyAstypeStr : Option String → String
  | none => "nan"
  | some s => s

/-- Pandas `Series.replace(dict)`: replace a value equal to a key of the
mapping by the mapped value, leave every other value unchanged. -/
def replaceMap (m : List (String × String)) (s : String) : String :=
  match m.find? (fun p => p.1 = s) with
  | some p => p.2
  | none => s

/-- Festival normalization of `load_data`, line 38:
`astype(str).str.strip().str.title().replace({"True":"Yes","False":"No"})`. -/
def festivalNormalize (v : Option String) : String :=
  replaceMap [("True", "Yes"), ("False", "No")] (pyTitle (pyStrip (pyAstypeStr v)))

/-- `order_hour` derivation of `load_data`, lines 26–32.  When the column is
present it is kept; otherwise, with `Time_Orderd` present, the hour of the
parsed time is taken (`dt.dt.hour`, null for NaT); otherwise the hour of
`Order_Date` with nulls filled by 0 (`.dt.hour.fillna(0).astype(int)`). -/
def deriveOrderHour (t : RawTable) (r : RawRow) : Option ℤ :=
  if t.hasOrderHour then r.orderHour
  else if t.hasTimeOrderd then r.timeOrderd.map (fun x => x % 24)
  else some ((r.orderDate.map (fun x => x % 24)).getD 0)

/-- `Rating_Group` derivation of `load_data`, lines 34–35: when absent and a
ratings column exists, `round().clip(1, 5).astype(int)`. -/
def deriveRatingGroup (t : RawTable) (r : RawRow) : Option ℤ :=
  if t.hasRatingGroup then r.ratingGroup
  else if t.hasDeliveryRatings then r.deliveryRating.map (fun q => min 5 (max 1 (npRound q)))
  else none

/-- One clean row from one raw row (the per-row effect of `load_data`). -/
def cleanRow (t : RawTable) (r : RawRow) : Row :=
  { orderDate := r.orderDate
    orderHour := deriveOrderHour t r
    ratingGroup := deriveRatingGroup t r
    deliveryRating := r.deliveryRating
    timeTaken := r.timeTaken
    city := r.city
    festival := if t.hasFestival then some (festivalNormalize r.festival) else r.festival
    weather := r.weather
    traffic := r.traffic
    deliverySpeed := r.deliverySpeed
    orderPeriod := none }

/-- `load_data`: column normalization of the raw table into the clean table. -/
def load_data (t : RawTable) : CleanTable :=
  { rows := t.rows.map (cleanRow t)
    hasDeliverySpeed := t.hasDeliverySpeed }

/-- The filter mask, lines 75–79: `Order_Date.between(start, end)` (inclusive)
AND `City.isin(sel_city)` AND `Rating_Group.isin(sel_rating)`.  Each test is
false on a null value. -/
def rowMask (startDate endDate : ℤ) (selCity : List String) (selRating : List ℤ)
    (r : Row) : Bool :=
  (match r.orderDate with
   | some d => decide (startDate ≤ d) && decide (d ≤ endDate)
   | none => false) &&
  (match r.city with
   | some c => selCity.contains c
   | none => false) &&
  (match r.ratingGroup with
   | some g => selRating.contains g
   | none => false)

/-- `dff = df.loc[mask].copy()`, line 80: the filtered table. -/
def filterTable (t : CleanTable) (startDate endDate : ℤ) (selCity : List String)
    (selRating : List ℤ) : CleanTable :=
  { t with rows := t.rows.filter (rowMask startDate endDate selCity selRating) }

/-- `sorted(df["City"].dropna().unique().tolist())` (line 59): the distinct
non-null cities (membership is all the mask uses, so sorting is dropped). -/
def distinctCities (t : CleanTable) : List String :=
  (t.rows.filterMap (fun r => r.city)).dedup

/-- `sorted(df["Rating_Group"].dropna().unique().tolist())` (line 65). -/
def distinctRatings (t : CleanTable) : List ℤ :=
  (t.rows.filterMap (fun r => r.ratingGroup)).dedup

/-- Minimum of a list of integers (`Series.min()` over the non-null values). -/
def listMin : List ℤ → Option ℤ
  | [] => none
  | x :: xs =>
    some (match listMin xs with
          | none => x
          | some m => min x m)

/-- Maximum of a list of integers (`Series.max()` over the non-null values). -/
def listMax : List ℤ → Option ℤ
  | [] => none
  | x :: xs =>
    some (match listMax xs with
          | none => x
          | some m => max x m)

/-- `df["Order_Date"].min()`: nulls are skipped. -/
def minOrderDate (t : CleanTable) : Option ℤ :=
  listMin (t.rows.filterMap (fun r => r.orderDate))

/-- `df["Order_Date"].max()`: nulls are skipped. -/
def maxOrderDate (t : CleanTable) : Option ℤ :=
  listMax (t.rows.filterMap (fun r => r.orderDate))

/-- `order_period`, lines 118–126: piecewise bucketing of an hour. -/
def order_period (x : ℤ) : String :=
  if 4 ≤ x ∧ x < 11 then "Morning"
  else if 11 ≤ x ∧ x < 14 then "Afternoon"
  else if 14 ≤ x ∧ x < 18 then "Evening"
  else "Night"

/-- `dff["order_period"] = dff["order_hour"].fillna(0).astype(int).map(order_period)`
(line 127): add the derived column to the filtered table. -/
def addOrderPeriod (t : CleanTable) : CleanTable :=
  { t with rows := t.rows.map (fun r =>
      { r with orderPeriod := some (order_period (r.orderHour.getD 0)) }) }

/-- The distinct non-null keys of a group-by (pandas `groupby` drops rows
whose group key is null). -/
def groupKeys {κ : Type} [DecidableEq κ] (k : Row → Option κ) (rows : List Row) :
    List κ :=
  (rows.filterMap k).dedup

/-- `groupby(key).size()`: row count per distinct non-null key. -/
def groupCount {κ : Type} [DecidableEq κ] (k : Row → Option κ) (rows : List Row) :
    List (κ × ℕ) :=
  (groupKeys k rows).map (fun key =>
    (key, (rows.filter (fun r => k r = some key)).length))

/-- `Series.mean()`: null on an empty series, else the arithmetic mean. -/
def qmean (l : List ℚ) : Option ℚ :=
  if l = [] then none else some (l.sum / l.length)

/-- `groupby(key)[val].mean()`: mean of the non-null values per distinct
non-null key (null when the group has no non-null value). -/
def groupMean {κ : Type} [DecidableEq κ] (k : Row → Option κ) (v : Row → Option ℚ)
    (rows : List Row) : List (κ × Option ℚ) :=
  (groupKeys k rows).map (fun key =>
    (key, qmean ((rows.filter (fun r => k r = some key)).filterMap v)))

/-- KPI `len(dff)` (line 84): count of orders. -/
def countOrders (t : CleanTable) : ℕ :=
  t.rows.length

/-- KPI `dff["Time_taken (min)"].mean()` (line 85): null (NaN) when empty. -/
def avgTimeTaken (t : CleanTable) : Option ℚ :=
  qmean (t.rows.filterMap (fun r => r.timeTaken))

/-- KPI `dff["Delivery_person_Ratings"].mean()` (line 86). -/
def avgRating (t : CleanTable) : Option ℚ :=
  qmean (t.rows.filterMap (fun r => r.deliveryRating))

/-- `by_day` (line 94): order counts by date, ascending by date. -/
def by_day (t : CleanTable) : List (ℤ × ℕ) :=
  (groupCount (fun r => r.orderDate) t.rows).mergeSort (fun a b => a.1 ≤ b.1)

/-- `by_city` (line 100): mean time taken by city. -/
def by_city (t : CleanTable) : List (String × Option ℚ) :=
  groupMean (fun r => r.city) (fun r => r.timeTaken) t.rows

/-- The compound group key of line 109: null when either component is null
(pandas `groupby` drops a row whose key tuple has a null component). -/
def hourFestKey (r : Row) : Option (ℤ × String) :=
  match r.orderHour, r.festival with
  | some h, some f => some (h, f)
  | _, _ => none

/-- `tmp` (line 109): order counts by (order_hour, Festival); a row whose hour
or festival is null carries no group key and is dropped. -/
def hourFestivalCounts (t : CleanTable) : List ((ℤ × String) × ℕ) :=
  groupCount hourFestKey t.rows

/-- The fixed order of the period buckets, `order_map` of line 129 (an unknown
label maps past the four buckets, as NaN sorts last). -/
def orderMapIdx (s : String) : ℕ :=
  if s = "Morning" then 0
  else if s = "Afternoon" then 1
  else if s = "Evening" then 2
  else if s = "Night" then 3
  else 4

/-- `tmp2` (lines 128–131): order counts by order period, in the fixed
Morning, Afternoon, Evening, Night order. -/
def periodCounts (t : CleanTable) : List (String × ℕ) :=
  (groupCount (fun r => r.orderPeriod) t.rows).mergeSort
    (fun a b => orderMapIdx a.1 ≤ orderMapIdx b.1)

/-- `speed_avg` (lines 141–147): mean rating by delivery speed when the
column is present; `none` models the explanatory placeholder shown instead
of a chart when the column is missing. -/
def speed_avg (t : CleanTable) : Option (List (String × Option ℚ)) :=
  if t.hasDeliverySpeed then
    some (groupMean (fun r => r.deliverySpeed) (fun r => r.deliveryRating) t.rows)
  else none

/-- `w_avg` (line 150): mean rating by weather condition. -/
def w_avg (t : CleanTable) : List (String × Option ℚ) :=
  groupMean (fun r => r.weather) (fun r => r.deliveryRating) t.rows

/-- `t_avg` (line 158): mean rating by road traffic density. -/
def t_avg (t : CleanTable) : List (String × Option ℚ) :=
  groupMean (fun r => r.traffic) (fun r => r.deliveryRating) t.rows

/-- `rg` (line 164): `value_counts().sort_index()` of Rating_Group —
row count per distinct non-null rating group, ascending by rating. -/
def rg_dist (t : CleanTable) : List (ℤ × ℕ) :=
  (groupCount (fun r => r.ratingGroup) t.rows).mergeSort (fun a b => a.1 ≤ b.1)

/-- The script's dataframe variables after the filter/aggregation section:
`df` is the clean table, `dff` the filtered table.  Every column assignment
after load (line 80 and line 127) targets `dff`. -/
structure ScriptRun where
  df : CleanTable
  dff : CleanTable
  byDayOut : List (ℤ × ℕ)
  byCityOut : List (String × Option ℚ)
  hourFestivalOut : List ((ℤ × String) × ℕ)
  periodOut : List (String × ℕ)
  speedOut : Option (List (String × Option ℚ))
  weatherOut : List (String × Option ℚ)
  trafficOut : List (String × Option ℚ)
  rgOut : List (ℤ × ℕ)
  deriving DecidableEq

/-- Lines 80–168 of the script: filter the clean table into `dff`, run the
first aggregations, add the `order_period` column to `dff` (line 127), and
run the remaining aggregations.  The clean table `df` is carried through
unchanged — no statement assigns to it. -/
def runScript (df : CleanTable) (startDate endDate : ℤ) (selCity : List String)
    (selRating : List ℤ) : ScriptRun :=
  let dff0 := filterTable df startDate endDate selCity selRating
  let o1 := by_day dff0
  let o2 := by_city dff0
  let o3 := hourFestivalCounts dff0
  let dff1 := addOrderPeriod dff0
  let o4 := periodCounts dff1
  let o5 := speed_avg dff1
  let o6 := w_avg dff1
  let o7 := t_avg dff1
  let o8 := rg_dist dff1
  { df := df, dff := dff1, byDayOut := o1, byCityOut := o2, hourFestivalOut := o3,
    periodOut := o4, speedOut := o5, weatherOut := o6, trafficOut := o7, rgOut := o8 }

/-- A sample raw row: rating 4.6, no pre-existing `Rating_Group`. -/
def exRowA : RawRow :=
  { orderDate := some 0, timeOrderd := none, orderHour := some 10,
    ratingGroup := none, deliveryRating := some (23/5), timeTaken := some 30,
    city := some "A", festival := some "No", weather := some "Sunny",
    traffic := some "Low", deliverySpeed := none }

/-- A sample raw table around `exRowA` whose `Rating_Group` column is absent
and whose ratings column is present. -/
def exRawA : RawTable :=
  { rows := [exRowA], hasOrderHour := true, hasTimeOrderd := false,
    hasRatingGroup := false, hasDeliveryRatings := true, hasFestival := true,
    hasDeliverySpeed := false }

/-- A raw row whose `Time_Orderd` cell is unparsable (NaT after coercion). -/
def exRowB : RawRow :=
  { orderDate := some 0, timeOrderd := none, orderHour := none,
    ratingGroup := some 3, deliveryRating := none, timeTaken := none,
    city := some "A", festival := none, weather := none, traffic := none,
    deliverySpeed := none }

/-- A raw table without an `order_hour` column but with a `Time_Orderd`
column, containing only `exRowB`. -/
def exRawB : RawTable :=
  { rows := [exRowB], hasOrderHour := false, hasTimeOrderd := true,
    hasRatingGroup := true, hasDeliveryRatings := false, hasFestival := false,
    hasDeliverySpeed := false }

/-- A raw row with a known order date (timestamp hour 30 % 24 = 6). -/
def exRowC : RawRow :=
  { orderDate := some 30, timeOrderd := none, orderHour := none,
    ratingGroup := some 3, deliveryRating := none, timeTaken := none,
    city := some "A", festival := none, weather := none, traffic := none,
    deliverySpeed := none }

/-- A raw table with neither `order_hour` nor `Time_Orderd` columns. -/
def exRawC : RawTable :=
  { rows := [exRowC], hasOrderHour := false, hasTimeOrderd := false,
    hasRatingGroup := true, hasDeliveryRatings := false, hasFestival := false,
    hasDeliverySpeed := false }

/-- A clean row with a null city but non-null date and rating group. -/
def exRowD : Row :=
  { orderDate := some 0, orderHour := some 10, ratingGroup := some 3,
    deliveryRating := none, timeTaken := none, city := none, festival := none,
    weather := none, traffic := none, deliverySpeed := none,
    orderPeriod := none }

/-- A one-row clean table whose single row has a null city. -/
def exCleanD : CleanTable :=
  { rows := [exRowD], hasDeliverySpeed := false }

/-- A fully non-null clean row. -/
def exRowE : Row :=
  { orderDate := some 5, orderHour := some 10, ratingGroup := some 4,
    deliveryRating := some 4, timeTaken := some 20, city := some "A",
    festival := some "No", weather := some "Sunny", traffic := some "Low",
    deliverySpeed := none, orderPeriod := none }

/-- A one-row clean table with no nulls in the filter columns. -/
def exCleanE : CleanTable :=
  { rows := [exRowE], hasDeliverySpeed := false }

/-- A raw row with a null `Festival` cell and hour 9. -/
def exRowG : RawRow :=
  { orderDate := some 9, timeOrderd := none, orderHour := some 9,
    ratingGroup := some 4, deliveryRating := some 4, timeTaken := some 20,
    city := some "A", festival := none, weather := some "Sunny",
    traffic := some "Low", deliverySpeed := none }

/-- A raw table with a `Festival` column containing a null value. -/
def exRawG : RawTable :=
  { rows := [exRowG], hasOrderHour := true, hasTimeOrderd := false,
    hasRatingGroup := true, hasDeliveryRatings := true, hasFestival := true,
    hasDeliverySpeed := false }

/-- C2: `order_period` is total on hours 0–23 and maps `h` to "Morning" iff
`4 ≤ h < 11`, "Afternoon" iff `11 ≤ h < 14`, "Evening" iff `14 ≤ h < 18`, and
"Night" otherwise, partitioning 0–23 into exactly the four buckets. -/
theorem order_period_partition (h : Fin 24) :
    (order_period (h : ℤ) = "Morning" ∨ order_period (h : ℤ) = "Afternoon" ∨
     order_period (h : ℤ) = "Evening" ∨ order_period (h : ℤ) = "Night") ∧
    (order_period (h : ℤ) = "Morning" ↔ 4 ≤ (h : ℤ) ∧ (h : ℤ) < 11) ∧
    (order_period (h : ℤ) = "Afternoon" ↔ 11 ≤ (h : ℤ) ∧ (h : ℤ) < 14) ∧
    (order_period (h : ℤ) = "Evening" ↔ 14 ≤ (h : ℤ) ∧ (h : ℤ) < 18) ∧
    (order_period (h : ℤ) = "Night" ↔ ((h : ℤ) < 4 ∨ 18 ≤ (h : ℤ))) := by
  fin_cases h <;> exact ⟨by decide, by decide, by decide, by decide, by decide⟩

/-- C1: when `Rating_Group` is absent in the source and a ratings column
exists, every loaded row with a non-null rating gets
`Rating_Group = clamp(round(rating), 1, 5)`, an integer in {1,2,3,4,5}. -/
theorem ratingGroup_clamp_round (t : RawTable)
    (hab : t.hasRatingGroup = false) (hex : t.hasDeliveryRatings = true) :
    ∀ row ∈ (load_data t).rows, ∀ q : ℚ, row.deliveryRating = some q →
      row.ratingGroup = some (max 1 (min (npRound q) 5)) ∧
      ∃ g : ℤ, row.ratingGroup = some g ∧
        (g = 1 ∨ g = 2 ∨ g = 3 ∨ g = 4 ∨ g = 5) := by
  intro row hmem q hq
  simp only [load_data, List.mem_map] at hmem
  obtain ⟨r0, hr0, rfl⟩ := hmem
  simp only [cleanRow] at hq ⊢
  have hrg : deriveRatingGroup t r0 = some (min 5 (max 1 (npRound q))) := by
    simp [deriveRatingGroup, hab, hex, hq]
  refine ⟨?_, min 5 (max 1 (npRound q)), hrg, ?_⟩
  · rw [hrg]
    congr 1
    omega
  · omega

/-- Witness for C1 at a one-row table with rating 4.6 (rounds to 5). -/
theorem ratingGroup_clamp_round_witness :
    ∃ row ∈ (load_data exRawA).rows,
      row.ratingGroup = some (max 1 (min (npRound (23/5)) 5)) ∧
      ∃ g : ℤ, row.ratingGroup = some g ∧
        (g = 1 ∨ g = 2 ∨ g = 3 ∨ g = 4 ∨ g = 5) := by
  have hm : cleanRow exRawA exRowA ∈ (load_data exRawA).rows :=
    List.mem_map_of_mem (cleanRow exRawA) (List.mem_singleton.mpr rfl)
  exact ⟨cleanRow exRawA exRowA, hm,
    ratingGroup_clamp_round exRawA rfl rfl _ hm (23/5) rfl⟩

/-- C3: the filtered table holds exactly the rows of the clean table whose
date lies in the inclusive interval, whose city is in the allowed set, and
whose rating group is in the allowed set; a row with a null date, city or
rating group never passes (the tests fail closed on null). -/
theorem filterTable_spec (t : CleanTable) (s e : ℤ) (cs : List String)
    (gs : List ℤ) (r : Row) :
    r ∈ (filterTable t s e cs gs).rows ↔
      r ∈ t.rows ∧
      (∃ d, r.orderDate = some d ∧ s ≤ d ∧ d ≤ e) ∧
      (∃ c, r.city = some c ∧ c ∈ cs) ∧
      (∃ g, r.ratingGroup = some g ∧ g ∈ gs) := by
  simp only [filterTable, List.mem_filter]
  constructor
  · rintro ⟨hmem, hmask⟩
    refine ⟨hmem, ?_⟩
    rcases hd : r.orderDate with _ | d
    · simp [rowMask, hd] at hmask
    rcases hc : r.city with _ | c
    · simp [rowMask, hd, hc] at hmask
    rcases hg : r.ratingGroup with _ | g
    · simp [rowMask, hd, hc, hg] at hmask
    simp only [rowMask, hd, hc, hg, Bool.and_eq_true, decide_eq_true_eq,
      List.contains, List.elem_eq_mem] at hmask
    exact ⟨⟨d, rfl, hmask.1.1.1, hmask.1.1.2⟩, ⟨c, rfl, hmask.1.2⟩,
      ⟨g, rfl, hmask.2⟩⟩
  · rintro ⟨hmem, ⟨d, hd, hd1, hd2⟩, ⟨c, hc, hcm⟩, ⟨g, hg, hgm⟩⟩
    refine ⟨hmem, ?_⟩
    simp only [rowMask, hd, hc, hg, Bool.and_eq_true, decide_eq_true_eq,
      List.contains, List.elem_eq_mem]
    exact ⟨⟨⟨hd1, hd2⟩, hcm⟩, hgm⟩

/-- C5: festival normalization trims, title-cases, then maps "True"→"Yes"
and "False"→"No", leaving every other (trimmed, title-cased) value as is;
in particular "true" ↦ "Yes", "  FALSE " ↦ "No", "yes" ↦ "Yes". -/
theorem festival_normalization :
    (∀ s : String,
       festivalNormalize (some s) =
         if pyTitle (pyStrip s) = "True" then "Yes"
         else if pyTitle (pyStrip s) = "False" then "No"
         else pyTitle (pyStrip s)) ∧
    festivalNormalize (some "true") = "Yes" ∧
    festivalNormalize (some "  FALSE ") = "No" ∧
    festivalNormalize (some "yes") = "Yes" := by
  refine ⟨?_, rfl, rfl, rfl⟩
  intro s
  unfold festivalNormalize replaceMap pyAstypeStr
  by_cases h1 : pyTitle (pyStrip s) = "True"
  · rw [List.find?_cons_of_pos _ (by simp [h1])]
    simp [h1]
  · rw [List.find?_cons_of_neg _ (by simpa using fun e => h1 e.symm)]
    by_cases h2 : pyTitle (pyStrip s) = "False"
    · rw [List.find?_cons_of_pos _ (by simp [h2])]
      simp [h2]
    · rw [List.find?_cons_of_neg _ (by simpa using fun e => h2 e.symm)]
      simp [h1, h2]

/-- C9: the filter/aggregation section never mutates the loaded clean table:
each step writes only the derived table `dff` (line 80's copy, line 127's
derived column), and `df` after the whole run is the table it started with. -/
theorem runScript_preserves_clean (df : CleanTable) (s e : ℤ)
    (cs : List String) (gs : List ℤ) :
    (runScript df s e cs gs).df = df := rfl

/-- C4 counterexample: with `Time_Orderd` present and a row whose time is
unparsable, the derived `order_hour` is null — not an integer in [0,23] and
not the claimed default 0 (`fillna(0)` runs only in the `Order_Date`
branch). -/
theorem order_hour_null_counterexample :
    ¬ (∀ row ∈ (load_data exRawB).rows, ∃ h : ℤ,
        row.orderHour = some h ∧ 0 ≤ h ∧ h ≤ 23) := by
  intro hall
  have hm : cleanRow exRawB exRowB ∈ (load_data exRawB).rows :=
    List.mem_map_of_mem (cleanRow exRawB) (List.mem_singleton.mpr rfl)
  obtain ⟨h, hh, _⟩ := hall _ hm
  simp [cleanRow, deriveOrderHour, exRawB, exRowB] at hh

/-- C4 amended: when `order_hour` is derived, every non-null value lies in
[0,23]; in the `Order_Date` branch (no `Time_Orderd` column) the value is
never null, with missing dates defaulting to hour 0; in the `Time_Orderd`
branch an unparsable time yields null rather than 0. -/
theorem order_hour_range (t : RawTable) (hno : t.hasOrderHour = false) :
    ∀ row ∈ (load_data t).rows,
      (∀ h : ℤ, row.orderHour = some h → 0 ≤ h ∧ h ≤ 23) ∧
      (t.hasTimeOrderd = false →
        ∃ h : ℤ, row.orderHour = some h ∧ 0 ≤ h ∧ h ≤ 23) := by
  intro row hmem
  simp only [load_data, List.mem_map] at hmem
  obtain ⟨r0, hr0, rfl⟩ := hmem
  have hmod : ∀ x : ℤ, 0 ≤ x % 24 ∧ x % 24 ≤ 23 := by
    intro x
    constructor
    · exact Int.emod_nonneg x (by norm_num)
    · have := Int.emod_lt_of_pos x (show (0:ℤ) < 24 by norm_num)
      omega
  constructor
  · intro h hh
    simp only [cleanRow, deriveOrderHour, hno, Bool.false_eq_true,
      if_false] at hh
    by_cases hto : t.hasTimeOrderd = true
    · rw [if_pos hto] at hh
      obtain ⟨x, _, hx⟩ := Option.map_eq_some'.mp hh
      rw [← hx]
      exact hmod x
    · rw [if_neg hto] at hh
      injection hh with hh
      rcases hdo : r0.orderDate with _ | x <;> rw [hdo] at hh
      · simp at hh
        omega
      · simp at hh
        rw [← hh]
        exact hmod x
  · intro hto
    simp only [cleanRow, deriveOrderHour, hno, Bool.false_eq_true, if_false,
      hto, if_false]
    rcases hdo : r0.orderDate with _ | x
    · exact ⟨0, by simp, by norm_num, by norm_num⟩
    · exact ⟨x % 24, by simp, hmod x⟩

/-- Witness for the amended C4 at a table deriving the hour from the date. -/
theorem order_hour_range_witness :
    ∃ row ∈ (load_data exRawC).rows,
      (∀ h : ℤ, row.orderHour = some h → 0 ≤ h ∧ h ≤ 23) ∧
      (exRawC.hasTimeOrderd = false →
        ∃ h : ℤ, row.orderHour = some h ∧ 0 ≤ h ∧ h ≤ 23) := by
  have hm : cleanRow exRawC exRowC ∈ (load_data exRawC).rows :=
    List.mem_map_of_mem (cleanRow exRawC) (List.mem_singleton.mpr rfl)
  exact ⟨cleanRow exRawC exRowC, hm, order_hour_range exRawC rfl _ hm⟩

/-- `listMin` is null only on the empty list. -/
theorem listMin_eq_none {l : List ℤ} (h : listMin l = none) : l = [] := by
  cases l with
  | nil => rfl
  | cons a as => simp [listMin] at h

/-- `listMax` is null only on the empty list. -/
theorem listMax_eq_none {l : List ℤ} (h : listMax l = none) : l = [] := by
  cases l with
  | nil => rfl
  | cons a as => simp [listMax] at h

/-- The minimum of a list bounds each member from below. -/
theorem listMin_le {l : List ℤ} : ∀ {m x : ℤ}, listMin l = some m → x ∈ l →
    m ≤ x := by
  induction l with
  | nil => intro m x _ hx; cases hx
  | cons a as ih =>
    intro m x hm hx
    rcases List.mem_cons.mp hx with rfl | hx'
    · cases h : listMin as with
      | none => simp [listMin, h] at hm; omega
      | some m' => simp [listMin, h] at hm; omega
    · cases h : listMin as with
      | none => rw [listMin_eq_none h] at hx'; cases hx'
      | some m' =>
        have hb := ih h hx'
        simp [listMin, h] at hm
        omega

/-- The maximum of a list bounds each member from above. -/
theorem le_listMax {l : List ℤ} : ∀ {m x : ℤ}, listMax l = some m → x ∈ l →
    x ≤ m := by
  induction l with
  | nil => intro m x _ hx; cases hx
  | cons a as ih =>
    intro m x hm hx
    rcases List.mem_cons.mp hx with rfl | hx'
    · cases h : listMax as with
      | none => simp [listMax, h] at hm; omega
      | some m' => simp [listMax, h] at hm; omega
    · cases h : listMax as with
      | none => rw [listMax_eq_none h] at hx'; cases hx'
      | some m' =>
        have hb := ih h hx'
        simp [listMax, h] at hm
        omega

/-- C6 counterexample: a clean table whose single row has a null city.  The
distinct-city list (built with `dropna`) is empty, the min–max date interval
covers the row's date, yet the full-selection filter drops the row: the
filtered row count is 0, not 1. -/
theorem full_filter_count_counterexample :
    minOrderDate exCleanD = some 0 ∧ maxOrderDate exCleanD = some 0 ∧
    countOrders (filterTable exCleanD 0 0 (distinctCities exCleanD)
      (distinctRatings exCleanD)) = 0 ∧
    countOrders exCleanD = 1 := ⟨rfl, rfl, rfl, rfl⟩

/-- C6 amended: filtering with the full distinct city and rating-group sets
and the min–max date interval preserves the row count, provided every row
has a non-null `Order_Date`, `City` and `Rating_Group` (rows with a null in
any filter column are excluded by the mask, so the equality can fail for
them). -/
theorem full_filter_preserves_count (t : CleanTable) (dmin dmax : ℤ)
    (hall : ∀ r ∈ t.rows,
      r.orderDate.isSome ∧ r.city.isSome ∧ r.ratingGroup.isSome)
    (hmin : minOrderDate t = some dmin) (hmax : maxOrderDate t = some dmax) :
    countOrders (filterTable t dmin dmax (distinctCities t)
      (distinctRatings t)) = countOrders t := by
  unfold minOrderDate at hmin
  unfold maxOrderDate at hmax
  have hfilter : t.rows.filter
      (rowMask dmin dmax (distinctCities t) (distinctRatings t)) = t.rows := by
    apply List.filter_eq_self.mpr
    intro r hr
    obtain ⟨hdo, hco, hgo⟩ := hall r hr
    obtain ⟨d, hd⟩ := Option.isSome_iff_exists.mp hdo
    obtain ⟨c, hc⟩ := Option.isSome_iff_exists.mp hco
    obtain ⟨g, hg⟩ := Option.isSome_iff_exists.mp hgo
    have hdmem : d ∈ t.rows.filterMap (fun r => r.orderDate) :=
      List.mem_filterMap.mpr ⟨r, hr, hd⟩
    have h1 : dmin ≤ d := listMin_le hmin hdmem
    have h2 : d ≤ dmax := le_listMax hmax hdmem
    have hcm : c ∈ distinctCities t :=
      List.mem_dedup.mpr (List.mem_filterMap.mpr ⟨r, hr, hc⟩)
    have hgm : g ∈ distinctRatings t :=
      List.mem_dedup.mpr (List.mem_filterMap.mpr ⟨r, hr, hg⟩)
    simp only [rowMask, hd, hc, hg, Bool.and_eq_true, decide_eq_true_eq,
      List.contains, List.elem_eq_mem]
    exact ⟨⟨⟨h1, h2⟩, hcm⟩, hgm⟩
  show (t.rows.filter _).length = t.rows.length
  rw [hfilter]

/-- Witness for the amended C6 at a one-row table with no nulls. -/
theorem full_filter_preserves_count_witness :
    countOrders (filterTable exCleanE 5 5 (distinctCities exCleanE)
      (distinctRatings exCleanE)) = countOrders exCleanE := by
  apply full_filter_preserves_count exCleanE 5 5
  · intro r hr
    rcases List.mem_singleton.mp hr with rfl
    refine ⟨rfl, rfl, rfl⟩
  · rfl
  · rfl

/-- C7 counterexample: a selection that filters everything out yields a row
count of 0 — the count-of-orders metric is the natural number zero (and line
84 renders exactly this number), not an undefined/NaN value, contradicting
"never as zero". -/
theorem empty_filter_zero_count_counterexample :
    (filterTable exCleanE 0 0 [] []).rows = [] ∧
    countOrders (filterTable exCleanE 0 0 [] []) = 0 := ⟨rfl, rfl⟩

/-- C7 amended: on an empty filtered table the pipeline (all total functions
here, so no exception) produces empty aggregations, undefined (null/NaN)
mean metrics, and a row count of zero. -/
theorem empty_filter_no_data (t tf : CleanTable) (s e : ℤ) (cs : List String)
    (gs : List ℤ) (_htf : tf = filterTable t s e cs gs)
    (hempty : tf.rows = []) :
    countOrders tf = 0 ∧ avgTimeTaken tf = none ∧ avgRating tf = none ∧
    by_day tf = [] ∧ by_city tf = [] ∧ hourFestivalCounts tf = [] ∧
    periodCounts (addOrderPeriod tf) = [] ∧
    (speed_avg (addOrderPeriod tf) = none ∨
     speed_avg (addOrderPeriod tf) = some []) ∧
    w_avg (addOrderPeriod tf) = [] ∧ t_avg (addOrderPeriod tf) = [] ∧
    rg_dist (addOrderPeriod tf) = [] := by
  have hrows : (addOrderPeriod tf).rows = [] := by
    simp [addOrderPeriod, hempty]
  refine ⟨?_, ?_, ?_, ?_, ?_, ?_, ?_, ?_, ?_, ?_, ?_⟩
  · simp [countOrders, hempty]
  · simp [avgTimeTaken, qmean, hempty]
  · simp [avgRating, qmean, hempty]
  · simp [by_day, groupCount, groupKeys, hempty, List.mergeSort_nil]
  · simp [by_city, groupMean, groupKeys, hempty]
  · simp [hourFestivalCounts, groupCount, groupKeys, hempty]
  · simp [periodCounts, groupCount, groupKeys, hrows, List.mergeSort_nil]
  · by_cases hds : tf.hasDeliverySpeed = true
    · right
      simp [speed_avg, addOrderPeriod, hds, groupMean, groupKeys, hempty]
    · left
      simp [speed_avg, addOrderPeriod, hds]
  · simp [w_avg, groupMean, groupKeys, hrows]
  · simp [t_avg, groupMean, groupKeys, hrows]
  · simp [rg_dist, groupCount, groupKeys, hrows, List.mergeSort_nil]

/-- Witness for the amended C7 at a concrete empty-result selection. -/
theorem empty_filter_no_data_witness :
    countOrders (filterTable exCleanE 0 0 [] []) = 0 ∧
    avgTimeTaken (filterTable exCleanE 0 0 [] []) = none ∧
    avgRating (filterTable exCleanE 0 0 [] []) = none ∧
    by_day (filterTable exCleanE 0 0 [] []) = [] ∧
    by_city (filterTable exCleanE 0 0 [] []) = [] ∧
    hourFestivalCounts (filterTable exCleanE 0 0 [] []) = [] ∧
    periodCounts (addOrderPeriod (filterTable exCleanE 0 0 [] [])) = [] ∧
    (speed_avg (addOrderPeriod (filterTable exCleanE 0 0 [] [])) = none ∨
     speed_avg (addOrderPeriod (filterTable exCleanE 0 0 [] [])) = some []) ∧
    w_avg (addOrderPeriod (filterTable exCleanE 0 0 [] [])) = [] ∧
    t_avg (addOrderPeriod (filterTable exCleanE 0 0 [] [])) = [] ∧
    rg_dist (addOrderPeriod (filterTable exCleanE 0 0 [] [])) = [] :=
  empty_filter_no_data exCleanE (filterTable exCleanE 0 0 [] []) 0 0 [] []
    rfl rfl

/-- C8: the mean-rating-by-delivery_speed aggregation is computed exactly
when the `delivery_speed` column is present; when absent it alone is `none`
(the placeholder is rendered instead of a chart), and every other
aggregation and metric is unaffected by the column's presence. -/
theorem speed_avg_optional (rows : List Row) :
    speed_avg ⟨rows, false⟩ = none ∧
    speed_avg ⟨rows, true⟩ = some (groupMean (fun r => r.deliverySpeed)
      (fun r => r.deliveryRating) rows) ∧
    by_day ⟨rows, true⟩ = by_day ⟨rows, false⟩ ∧
    by_city ⟨rows, true⟩ = by_city ⟨rows, false⟩ ∧
    hourFestivalCounts ⟨rows, true⟩ = hourFestivalCounts ⟨rows, false⟩ ∧
    periodCounts (addOrderPeriod ⟨rows, true⟩) =
      periodCounts (addOrderPeriod ⟨rows, false⟩) ∧
    w_avg ⟨rows, true⟩ = w_avg ⟨rows, false⟩ ∧
    t_avg ⟨rows, true⟩ = t_avg ⟨rows, false⟩ ∧
    rg_dist ⟨rows, true⟩ = rg_dist ⟨rows, false⟩ ∧
    countOrders ⟨rows, true⟩ = countOrders ⟨rows, false⟩ ∧
    avgTimeTaken ⟨rows, true⟩ = avgTimeTaken ⟨rows, false⟩ ∧
    avgRating ⟨rows, true⟩ = avgRating ⟨rows, false⟩ :=
  ⟨rfl, rfl, rfl, rfl, rfl, rfl, rfl, rfl, rfl, rfl, rfl, rfl⟩

/-- C10: festival normalization leaves no nulls — a null `Festival` cell
becomes the literal string "Nan" (string conversion then title-casing), and
a row with festival "Nan" and a non-null hour contributes to its own
`(hour, "Nan")` group of the orders-by-hour-and-festival aggregation
instead of being dropped. -/
theorem festival_null_to_nan_group (t : RawTable) (hf : t.hasFestival = true) :
    festivalNormalize none = "Nan" ∧
    (∀ row ∈ (load_data t).rows, row.festival ≠ none) ∧
    (∀ u : CleanTable, ∀ r ∈ u.rows, ∀ h : ℤ,
      r.orderHour = some h → r.festival = some "Nan" →
      ∃ n : ℕ, ((h, "Nan"), n) ∈ hourFestivalCounts u ∧ 0 < n) := by
  refine ⟨rfl, ?_, ?_⟩
  · intro row hmem
    simp only [load_data, List.mem_map] at hmem
    obtain ⟨r0, hr0, rfl⟩ := hmem
    simp [cleanRow, hf]
  · intro u r hr h hh hfest
    have hk : hourFestKey r = some (h, "Nan") := by
      simp [hourFestKey, hh, hfest]
    have hkey : (h, "Nan") ∈ groupKeys hourFestKey u.rows :=
      List.mem_dedup.mpr (List.mem_filterMap.mpr ⟨r, hr, hk⟩)
    refine ⟨_, List.mem_map_of_mem _ hkey, ?_⟩
    have hrf : r ∈ u.rows.filter
        (fun r' => decide (hourFestKey r' = some (h, "Nan"))) :=
      List.mem_filter.mpr ⟨hr, by simp [hk]⟩
    exact List.length_pos_of_mem hrf

/-- Witness for C10 at a one-row table with a null festival and hour 9. -/
theorem festival_null_to_nan_group_witness :
    festivalNormalize none = "Nan" ∧
    (cleanRow exRawG exRowG).festival ≠ none ∧
    ∃ n : ℕ, (((9 : ℤ), "Nan"), n) ∈ hourFestivalCounts (load_data exRawG) ∧
      0 < n := by
  obtain ⟨h1, h2, h3⟩ := festival_null_to_nan_group exRawG rfl
  have hm : cleanRow exRawG exRowG ∈ (load_data exRawG).rows :=
    List.mem_map_of_mem (cleanRow exRawG) (List.mem_singleton.mpr rfl)
  exact ⟨h1, h2 _ hm, h3 (load_data exRawG) _ hm 9 rfl rfl⟩
